import Mathlib

/-!
Shallow embedding of `drfc_manager/utils/minio/utilities.py`.

The module is a facade over a MinIO client: it serializes records to JSON,
uploads them and raw buffers/local files to keys built from environment
configuration, checks object existence, copies objects and bulk-deletes a
key "folder".  The client is modelled as a record of fallible operations
(`Except PyExc`), Python exceptions as an inductive separating
`MinioException` from every other exception, and each embedded function
returns both the list of client calls it issues (its observable effect) and
its Python outcome: a returned `Bool` or a raised `FileUploadException`.
-/

/-- The three environment variables the module reads at import time
(`os.getenv` yields the value or `None`), utilities.py lines 15-17. -/
structure Env where
  BUCKET_NAME : Option String
  CUSTOM_FILES_FOLDER_PATH : Option String
  REWARD_FUNCTION_PATH : Option String
deriving DecidableEq, Repr

/-- `_bucket_name = os.getenv('BUCKET_NAME')` (line 15). -/
def _bucket_name (env : Env) : Option String := env.BUCKET_NAME

/-- `_custom_files_folder = os.getenv('CUSTOM_FILES_FOLDER_PATH')` (line 16). -/
def _custom_files_folder (env : Env) : Option String := env.CUSTOM_FILES_FOLDER_PATH

/-- `_reward_function_path = os.getenv('REWARD_FUNCTION_PATH')` (line 17); read but
never used by any operation. -/
def _reward_function_path (env : Env) : Option String := env.REWARD_FUNCTION_PATH

/-- Python f-string interpolation of an `Optional[str]`: `None` renders as the
literal string "None". -/
def pyStr : Option String → String
  | none => "None"
  | some s => s

/-- Python `bytes`, modelled as a list of byte values. -/
abbrev Bytes := List Nat

/-- An exception raised by the underlying client or library, separating
`minio.error.MinioException` (matched by the first `except` clause) from every
other `Exception` (matched by the second). -/
inductive PyExc where
  | minioException (info : String)
  | otherException (info : String)
deriving DecidableEq, Repr

/-- Modelled from the spec: the repository's `FileUploadException` class
(`drfc_manager/utils/minio/exceptions/file_upload_exception.py`, not under
`src/`), the single UploadFailure kind "carrying either a human-readable
message naming the failed operation and object key, or a wrapped arbitrary
underlying error"; constructed in the source as
`FileUploadException(message=...)` or `FileUploadException(original_exception=e)`. -/
inductive FileUploadException where
  | withMessage (message : String)
  | wrapping (original_exception : PyExc)
deriving DecidableEq, Repr

/-- `minio.commonconfig.CopySource`: a bucket/object pair naming a copy source. -/
structure CopySource where
  bucket_name : Option String
  object_name : String
deriving DecidableEq, Repr

/-- `minio.deleteobjects.DeleteObject`: one object name in a batch delete. -/
structure DeleteObject where
  name : String
deriving DecidableEq, Repr

/-- A listing entry as returned by `list_objects`: only `object_name` is read. -/
structure ObjInfo where
  object_name : String
deriving DecidableEq, Repr

/-- A per-key deletion error as yielded by `remove_objects`. -/
structure DeleteError where
  code : String
  message : String
  name : String
deriving DecidableEq, Repr

/-- One observable call issued to the MinIO client, with the exact arguments
the module passes. -/
inductive Call where
  | putObject (bucket : Option String) (key : String) (data : Bytes)
      (length : Nat) (content_type : String)
  | fputObject (bucket : Option String) (object_name : String) (file_path : String)
  | statObject (bucket : Option String) (object_name : String)
  | copyObject (bucket : Option String) (dest_object_name : String) (source : CopySource)
  | listObjects (bucket : Option String) (object_name : String)
  | removeObjects (bucket : Option String) (delete_objects : List DeleteObject)
deriving DecidableEq, Repr

/-- The MinIO client collaborator: each operation either returns or raises.
For `put_object`/`fput_object` the returned `Bool` is the truthiness of the
result object the client reports (the source only tests `if result`). -/
structure MinioClient where
  put_object : Option String → String → Bytes → Nat → String → Except PyExc Bool
  fput_object : Option String → String → String → Except PyExc Bool
  stat_object : Option String → String → Except PyExc Unit
  copy_object : Option String → String → CopySource → Except PyExc Unit
  list_objects : Option String → String → Except PyExc (List ObjInfo)
  remove_objects : Option String → List DeleteObject → Except PyExc (List DeleteError)

/-- The uniform exception-mapping policy of every `try/except` block in the
module: a `MinioException` becomes `FileUploadException(message=...)` with the
block's descriptive message, any other exception becomes
`FileUploadException(original_exception=e)`. -/
def wrapExc (e : PyExc) (msg : String) : FileUploadException :=
  match e with
  | .minioException _ => .withMessage msg
  | e => .wrapping e

/-- `upload_hyperparameters` (utilities.py lines 20-52).  `dumps` stands for
`orjson.dumps(·, option=OPT_INDENT_2)`: the external serializer, which either
returns the serialized bytes or raises a (non-MinIO) serialization error. -/
def upload_hyperparameters {R : Type} (env : Env)
    (dumps : R → Except String Bytes)
    (minio_client : MinioClient) (hyperparameters : R) :
    List Call × Except FileUploadException Bool :=
  match dumps hyperparameters with
  | .error err => ([], .error (.wrapping (.otherException err)))
  | .ok hyperparameters_serialized =>
    let object_size := hyperparameters_serialized.length
    let object_name := "hyperparameters.json"
    let key := pyStr (_custom_files_folder env) ++ "/" ++ object_name
    let calls := [Call.putObject (_bucket_name env) key hyperparameters_serialized
      object_size "application/json"]
    match minio_client.put_object (_bucket_name env) key hyperparameters_serialized
      object_size "application/json" with
    | .ok result => (calls, .ok (if result then true else false))
    | .error (.minioException _) =>
        (calls, .error (.withMessage ("Error uploading " ++ object_name ++ " file to S3 bucket")))
    | .error e => (calls, .error (.wrapping e))

/-- `upload_reward_function` (utilities.py lines 55-75); the buffer is passed
through unchanged and its length is `getbuffer().nbytes`.  Note the double
space in the source's failure message. -/
def upload_reward_function (env : Env) (minio_client : MinioClient)
    (reward_function_buffer : Bytes) :
    List Call × Except FileUploadException Bool :=
  let buffer_size := reward_function_buffer.length
  let object_name := "reward_function.py"
  let key := pyStr (_custom_files_folder env) ++ "/" ++ object_name
  let calls := [Call.putObject (_bucket_name env) key reward_function_buffer
    buffer_size "text/plain"]
  match minio_client.put_object (_bucket_name env) key reward_function_buffer
    buffer_size "text/plain" with
  | .ok result => (calls, .ok (if result then true else false))
  | .error (.minioException _) =>
      (calls, .error (.withMessage ("Error uploading " ++ object_name ++ "  file to S3 bucket")))
  | .error e => (calls, .error (.wrapping e))

/-- `upload_metadata` (utilities.py lines 78-110).  Note the double space in
the source's failure message, unlike `upload_hyperparameters`. -/
def upload_metadata {R : Type} (env : Env)
    (dumps : R → Except String Bytes)
    (minio_client : MinioClient) (model_metadata : R) :
    List Call × Except FileUploadException Bool :=
  match dumps model_metadata with
  | .error err => ([], .error (.wrapping (.otherException err)))
  | .ok model_metadata_serialized =>
    let object_size := model_metadata_serialized.length
    let object_name := "model_metadata.json"
    let key := pyStr (_custom_files_folder env) ++ "/" ++ object_name
    let calls := [Call.putObject (_bucket_name env) key model_metadata_serialized
      object_size "application/json"]
    match minio_client.put_object (_bucket_name env) key model_metadata_serialized
      object_size "application/json" with
    | .ok result => (calls, .ok (if result then true else false))
    | .error (.minioException _) =>
        (calls, .error (.withMessage ("Error uploading " ++ object_name ++ "  file to S3 bucket")))
    | .error e => (calls, .error (.wrapping e))

/-- `upload_local_data` (utilities.py lines 113-125): uploads the local file to
the caller-supplied key, no prefixing. -/
def upload_local_data (env : Env) (minio_client : MinioClient)
    (local_data_path : String) (object_name : String) :
    List Call × Except FileUploadException Bool :=
  let calls := [Call.fputObject (_bucket_name env) object_name local_data_path]
  match minio_client.fput_object (_bucket_name env) object_name local_data_path with
  | .ok result => (calls, .ok (if result then true else false))
  | .error (.minioException _) =>
      (calls, .error (.withMessage ("Error uploading " ++ object_name ++ "  file to S3 bucket")))
  | .error e => (calls, .error (.wrapping e))

/-- `check_if_object_exists` (utilities.py lines 128-133): `true` when
`stat_object` returns, `false` on any exception; the `Bool` result type (no
exception component) records that the function itself never raises. -/
def check_if_object_exists (env : Env) (minio_client : MinioClient)
    (object_name : String) : List Call × Bool :=
  let calls := [Call.statObject (_bucket_name env) object_name]
  match minio_client.stat_object (_bucket_name env) object_name with
  | .ok _ => (calls, true)
  | .error _ => (calls, false)

/-- `copy_object` (utilities.py lines 136-147): one server-side copy within the
configured bucket, source described by a `CopySource` on the same bucket. -/
def copy_object (env : Env) (minio_client : MinioClient)
    (source_object_name : String) (dest_object_name : String) :
    List Call × Except FileUploadException Bool :=
  let src := CopySource.mk (_bucket_name env) source_object_name
  let calls := [Call.copyObject (_bucket_name env) dest_object_name src]
  match minio_client.copy_object (_bucket_name env) dest_object_name src with
  | .ok _ => (calls, .ok true)
  | .error (.minioException _) =>
      (calls, .error (.withMessage
        ("Error copying " ++ source_object_name ++ " to " ++ dest_object_name)))
  | .error e => (calls, .error (.wrapping e))

/-- `remove_objects_folder` (utilities.py lines 150-164): list the objects
under the given name, batch-delete exactly their names, return `True`; the
iterable of per-key deletion errors that `remove_objects` reports is never
inspected. -/
def remove_objects_folder (env : Env) (minio_client : MinioClient)
    (object_name : String) : List Call × Except FileUploadException Bool :=
  match minio_client.list_objects (_bucket_name env) object_name with
  | .error (.minioException _) =>
      ([Call.listObjects (_bucket_name env) object_name],
       .error (.withMessage ("Error deleting " ++ object_name ++ " folder")))
  | .error e =>
      ([Call.listObjects (_bucket_name env) object_name], .error (.wrapping e))
  | .ok objects =>
    let objects_names := objects.map (fun obj => obj.object_name)
    let delete_objects := objects_names.map (fun name => DeleteObject.mk name)
    match minio_client.remove_objects (_bucket_name env) delete_objects with
    | .ok _errors =>
        ([Call.listObjects (_bucket_name env) object_name,
          Call.removeObjects (_bucket_name env) delete_objects], .ok true)
    | .error (.minioException _) =>
        ([Call.listObjects (_bucket_name env) object_name,
          Call.removeObjects (_bucket_name env) delete_objects],
         .error (.withMessage ("Error deleting " ++ object_name ++ " folder")))
    | .error e =>
        ([Call.listObjects (_bucket_name env) object_name,
          Call.removeObjects (_bucket_name env) delete_objects],
         .error (.wrapping e))

/-- The common shape of the two JSON-artifact uploaders, abstracted over the
fixed object name and the storage-error message; `upload_hyperparameters` and
`upload_metadata` are compared against it to make their relationship exact. -/
def jsonUploadShape {R : Type} (env : Env) (object_name : String) (message : String)
    (dumps : R → Except String Bytes)
    (minio_client : MinioClient) (record : R) :
    List Call × Except FileUploadException Bool :=
  match dumps record with
  | .error err => ([], .error (.wrapping (.otherException err)))
  | .ok body =>
    let key := pyStr (_custom_files_folder env) ++ "/" ++ object_name
    let calls := [Call.putObject (_bucket_name env) key body body.length "application/json"]
    match minio_client.put_object (_bucket_name env) key body body.length "application/json" with
    | .ok result => (calls, .ok (if result then true else false))
    | .error (.minioException _) => (calls, .error (.withMessage message))
    | .error e => (calls, .error (.wrapping e))

/-- A concrete environment with both bucket and folder configured. -/
def envW : Env :=
  { BUCKET_NAME := some "models"
    CUSTOM_FILES_FOLDER_PATH := some "custom"
    REWARD_FUNCTION_PATH := none }

/-- A concrete environment where the folder variable is unset. -/
def envNone : Env :=
  { BUCKET_NAME := some "models"
    CUSTOM_FILES_FOLDER_PATH := none
    REWARD_FUNCTION_PATH := none }

/-- A concrete serializer on `Nat` records: `n` serializes to `n` copies of
byte 55. -/
def dumpsW : Nat → Except String Bytes := fun n => .ok (List.replicate n 55)

/-- The deserializer inverting `dumpsW`: read off the length. -/
def loadsW : Bytes → Option Nat := fun bs => some bs.length

/-- A client on which every operation succeeds (and reports a truthy result). -/
def clientOk : MinioClient :=
  { put_object := fun _ _ _ _ _ => .ok true
    fput_object := fun _ _ _ => .ok true
    stat_object := fun _ _ => .ok ()
    copy_object := fun _ _ _ => .ok ()
    list_objects := fun _ _ => .ok []
    remove_objects := fun _ _ => .ok [] }

/-- A client on which every operation raises `MinioException`. -/
def clientMinioErr : MinioClient :=
  { put_object := fun _ _ _ _ _ => .error (.minioException "boom")
    fput_object := fun _ _ _ => .error (.minioException "boom")
    stat_object := fun _ _ => .error (.minioException "boom")
    copy_object := fun _ _ _ => .error (.minioException "boom")
    list_objects := fun _ _ => .error (.minioException "boom")
    remove_objects := fun _ _ => .error (.minioException "boom") }

/-- A client whose batch delete returns (not raises) a non-empty iterable of
per-key deletion errors. -/
def clientDelErrs : MinioClient :=
  { put_object := fun _ _ _ _ _ => .ok true
    fput_object := fun _ _ _ => .ok true
    stat_object := fun _ _ => .ok ()
    copy_object := fun _ _ _ => .ok ()
    list_objects := fun _ _ => .ok [ObjInfo.mk "custom/a"]
    remove_objects := fun _ _ => .ok [DeleteError.mk "InternalError" "oops" "custom/a"] }

/-- C1: for every record that serializes successfully, `upload_hyperparameters`
and `upload_metadata` issue exactly one `put_object` call whose body is the
serialized bytes (hence deserializing the uploaded bytes reproduces the
record, for any deserializer inverting the serializer on it), whose `length`
is the exact byte count of that body, with content-type `application/json`,
at keys `{folder}/hyperparameters.json` resp. `{folder}/model_metadata.json`;
and when the client returns, the function returns the truthiness of the
client's reported result (`true` iff a result object is reported). -/
theorem upload_json_artifacts_roundtrip {R : Type} (env : Env)
    (minio_client : MinioClient)
    (dumps : R → Except String Bytes) (loads : Bytes → Option R)
    (record : R) (body : Bytes)
    (hser : dumps record = Except.ok body)
    (hinv : loads body = some record) :
    (upload_hyperparameters env dumps minio_client record).1
      = [Call.putObject (_bucket_name env)
          (pyStr (_custom_files_folder env) ++ "/" ++ "hyperparameters.json")
          body body.length "application/json"]
    ∧ (upload_metadata env dumps minio_client record).1
      = [Call.putObject (_bucket_name env)
          (pyStr (_custom_files_folder env) ++ "/" ++ "model_metadata.json")
          body body.length "application/json"]
    ∧ loads body = some record
    ∧ (∀ resp : Bool,
        minio_client.put_object (_bucket_name env)
          (pyStr (_custom_files_folder env) ++ "/" ++ "hyperparameters.json")
          body body.length "application/json" = Except.ok resp →
        (upload_hyperparameters env dumps minio_client record).2 = Except.ok resp)
    ∧ (∀ resp : Bool,
        minio_client.put_object (_bucket_name env)
          (pyStr (_custom_files_folder env) ++ "/" ++ "model_metadata.json")
          body body.length "application/json" = Except.ok resp →
        (upload_metadata env dumps minio_client record).2 = Except.ok resp) := by
  refine ⟨?_, ?_, hinv, ?_, ?_⟩
  · simp only [upload_hyperparameters, hser]
    split <;> rfl
  · simp only [upload_metadata, hser]
    split <;> rfl
  · intro resp h
    simp only [upload_hyperparameters, hser, h]
    cases resp <;> rfl
  · intro resp h
    simp only [upload_metadata, hser, h]
    cases resp <;> rfl

/-- C1 witness at a concrete environment, client and record. -/
theorem upload_json_artifacts_roundtrip_witness :
    (upload_hyperparameters envW dumpsW clientOk 3).1
      = [Call.putObject (_bucket_name envW)
          (pyStr (_custom_files_folder envW) ++ "/" ++ "hyperparameters.json")
          (List.replicate 3 55) (List.replicate 3 55).length "application/json"] :=
  (upload_json_artifacts_roundtrip envW clientOk dumpsW loadsW 3
    (List.replicate 3 55) rfl rfl).1

/-- C2: `check_if_object_exists` returns `true` iff the client's `stat_object`
returns without raising, and returns `false` on every raised exception,
whatever it is; its `Bool` result type records that it never raises itself. -/
theorem check_if_object_exists_spec (env : Env) (minio_client : MinioClient)
    (object_name : String) :
    ((check_if_object_exists env minio_client object_name).2 = true
      ↔ minio_client.stat_object (_bucket_name env) object_name = Except.ok ())
    ∧ (∀ e : PyExc,
        minio_client.stat_object (_bucket_name env) object_name = Except.error e →
        (check_if_object_exists env minio_client object_name).2 = false) := by
  constructor
  · constructor
    · intro h
      rcases hstat : minio_client.stat_object (_bucket_name env) object_name with e | u
      · simp [check_if_object_exists, hstat] at h
      · cases u
        simp [hstat]
    · intro h
      simp only [check_if_object_exists, h]
  · intro e h
    simp only [check_if_object_exists, h]

/-- C2 witness: on a client whose probe raises, the check reports `false`. -/
theorem check_if_object_exists_spec_witness :
    (check_if_object_exists envW clientMinioErr "custom/a.json").2 = false :=
  (check_if_object_exists_spec envW clientMinioErr "custom/a.json").2
    (.minioException "boom") rfl


/-- C3: every exception the underlying client raises inside
`upload_hyperparameters`, `upload_reward_function`, `upload_metadata`,
`upload_local_data`, `copy_object` or `remove_objects_folder` surfaces as a
`FileUploadException` (the result type `Except FileUploadException Bool`
already rules out propagating the raw error type): a `MinioException` becomes
`FileUploadException` with the block's descriptive message naming the failed
object, and any other exception becomes `FileUploadException` wrapping the
original, exactly as `wrapExc` states. -/
theorem underlying_errors_wrapped {R : Type} (env : Env) (minio_client : MinioClient)
    (dumps : R → Except String Bytes) (record : R) (body : Bytes)
    (hser : dumps record = Except.ok body)
    (local_data_path : String) (object_name : String)
    (source_object_name : String) (dest_object_name : String)
    (reward_function_buffer : Bytes) (e : PyExc) :
    (minio_client.put_object (_bucket_name env)
        (pyStr (_custom_files_folder env) ++ "/" ++ "hyperparameters.json")
        body body.length "application/json" = Except.error e →
      (upload_hyperparameters env dumps minio_client record).2
        = Except.error (wrapExc e ("Error uploading " ++ "hyperparameters.json" ++ " file to S3 bucket")))
    ∧ (minio_client.put_object (_bucket_name env)
        (pyStr (_custom_files_folder env) ++ "/" ++ "model_metadata.json")
        body body.length "application/json" = Except.error e →
      (upload_metadata env dumps minio_client record).2
        = Except.error (wrapExc e ("Error uploading " ++ "model_metadata.json" ++ "  file to S3 bucket")))
    ∧ (minio_client.put_object (_bucket_name env)
        (pyStr (_custom_files_folder env) ++ "/" ++ "reward_function.py")
        reward_function_buffer reward_function_buffer.length "text/plain" = Except.error e →
      (upload_reward_function env minio_client reward_function_buffer).2
        = Except.error (wrapExc e ("Error uploading " ++ "reward_function.py" ++ "  file to S3 bucket")))
    ∧ (minio_client.fput_object (_bucket_name env) object_name local_data_path
        = Except.error e →
      (upload_local_data env minio_client local_data_path object_name).2
        = Except.error (wrapExc e ("Error uploading " ++ object_name ++ "  file to S3 bucket")))
    ∧ (minio_client.copy_object (_bucket_name env) dest_object_name
        (CopySource.mk (_bucket_name env) source_object_name) = Except.error e →
      (copy_object env minio_client source_object_name dest_object_name).2
        = Except.error (wrapExc e ("Error copying " ++ source_object_name ++ " to " ++ dest_object_name)))
    ∧ (minio_client.list_objects (_bucket_name env) object_name = Except.error e →
      (remove_objects_folder env minio_client object_name).2
        = Except.error (wrapExc e ("Error deleting " ++ object_name ++ " folder")))
    ∧ (∀ objects : List ObjInfo,
        minio_client.list_objects (_bucket_name env) object_name = Except.ok objects →
        minio_client.remove_objects (_bucket_name env)
          ((objects.map (fun obj => obj.object_name)).map (fun name => DeleteObject.mk name))
          = Except.error e →
      (remove_objects_folder env minio_client object_name).2
        = Except.error (wrapExc e ("Error deleting " ++ object_name ++ " folder"))) := by
  refine ⟨?_, ?_, ?_, ?_, ?_, ?_, ?_⟩
  · intro h
    simp only [upload_hyperparameters, hser, h, wrapExc]
    cases e <;> rfl
  · intro h
    simp only [upload_metadata, hser, h, wrapExc]
    cases e <;> rfl
  · intro h
    simp only [upload_reward_function, h, wrapExc]
    cases e <;> rfl
  · intro h
    simp only [upload_local_data, h, wrapExc]
    cases e <;> rfl
  · intro h
    simp only [copy_object, h, wrapExc]
    cases e <;> rfl
  · intro h
    simp only [remove_objects_folder, h, wrapExc]
    cases e <;> rfl
  · intro objects hlist hrem
    simp only [remove_objects_folder, hlist, hrem, wrapExc]
    cases e <;> rfl

/-- C3 witness: on a client raising `MinioException`, the wrapped failure of
`upload_hyperparameters` carries the descriptive message. -/
theorem underlying_errors_wrapped_witness :
    (upload_hyperparameters envW dumpsW clientMinioErr 0).2
      = Except.error (wrapExc (PyExc.minioException "boom")
          ("Error uploading " ++ "hyperparameters.json" ++ " file to S3 bucket")) :=
  (underlying_errors_wrapped envW clientMinioErr dumpsW 0 (List.replicate 0 55) rfl
    "/tmp/x" "custom/a" "a.json" "b.json" [1, 2]
    (PyExc.minioException "boom")).1 rfl

/-- C4: `remove_objects_folder` lists the objects under the given name, issues
one batch delete of exactly the listed objects' names, and returns `true` no
matter how many objects were listed — the listing `objects` is arbitrary here,
including the empty one. -/
theorem remove_objects_folder_spec (env : Env) (minio_client : MinioClient)
    (object_name : String) (objects : List ObjInfo) (errs : List DeleteError)
    (hlist : minio_client.list_objects (_bucket_name env) object_name
      = Except.ok objects)
    (hrem : minio_client.remove_objects (_bucket_name env)
        ((objects.map (fun obj => obj.object_name)).map (fun name => DeleteObject.mk name))
      = Except.ok errs) :
    remove_objects_folder env minio_client object_name
      = ([Call.listObjects (_bucket_name env) object_name,
          Call.removeObjects (_bucket_name env)
            ((objects.map (fun obj => obj.object_name)).map (fun name => DeleteObject.mk name))],
         Except.ok true) := by
  simp only [remove_objects_folder, hlist, hrem]

/-- C4 witness: with zero matching objects the call still succeeds with an
empty batch delete. -/
theorem remove_objects_folder_spec_witness :
    remove_objects_folder envW clientOk "custom"
      = ([Call.listObjects (_bucket_name envW) "custom",
          Call.removeObjects (_bucket_name envW)
            (((List.nil : List ObjInfo).map (fun obj => obj.object_name)).map
              (fun name => DeleteObject.mk name))],
         Except.ok true) :=
  remove_objects_folder_spec envW clientOk "custom" [] [] rfl rfl

/-- C5: `upload_reward_function` issues exactly one `put_object` call whose
data is the supplied buffer itself (no mutation or truncation), whose `length`
is the buffer's exact byte count, at key `{folder}/reward_function.py` with
content-type `text/plain`; when the client returns, the function returns the
truthiness of the client's reported result. -/
theorem upload_reward_function_spec (env : Env) (minio_client : MinioClient)
    (reward_function_buffer : Bytes) :
    (upload_reward_function env minio_client reward_function_buffer).1
      = [Call.putObject (_bucket_name env)
          (pyStr (_custom_files_folder env) ++ "/" ++ "reward_function.py")
          reward_function_buffer reward_function_buffer.length "text/plain"]
    ∧ (∀ resp : Bool,
        minio_client.put_object (_bucket_name env)
          (pyStr (_custom_files_folder env) ++ "/" ++ "reward_function.py")
          reward_function_buffer reward_function_buffer.length "text/plain"
          = Except.ok resp →
        (upload_reward_function env minio_client reward_function_buffer).2
          = Except.ok resp) := by
  constructor
  · simp only [upload_reward_function]
    split <;> rfl
  · intro resp h
    simp only [upload_reward_function, h]
    cases resp <;> rfl

/-- C5 witness at a concrete buffer and succeeding client. -/
theorem upload_reward_function_spec_witness :
    (upload_reward_function envW clientOk [100, 101, 102]).1
      = [Call.putObject (_bucket_name envW)
          (pyStr (_custom_files_folder envW) ++ "/" ++ "reward_function.py")
          [100, 101, 102] (List.length [100, 101, 102]) "text/plain"] :=
  (upload_reward_function_spec envW clientOk [100, 101, 102]).1

/-- C6: `copy_object` issues exactly one server-side copy call, from a
`CopySource` whose bucket equals the destination bucket (both the configured
one) and whose object is the source name, to the destination name; it returns
`true` when the client's copy returns, and raises a `FileUploadException` when
it raises. -/
theorem copy_object_spec (env : Env) (minio_client : MinioClient)
    (source_object_name : String) (dest_object_name : String) :
    (copy_object env minio_client source_object_name dest_object_name).1
      = [Call.copyObject (_bucket_name env) dest_object_name
          (CopySource.mk (_bucket_name env) source_object_name)]
    ∧ (minio_client.copy_object (_bucket_name env) dest_object_name
        (CopySource.mk (_bucket_name env) source_object_name) = Except.ok () →
      (copy_object env minio_client source_object_name dest_object_name).2
        = Except.ok true)
    ∧ (∀ e : PyExc,
        minio_client.copy_object (_bucket_name env) dest_object_name
          (CopySource.mk (_bucket_name env) source_object_name) = Except.error e →
        ∃ f : FileUploadException,
          (copy_object env minio_client source_object_name dest_object_name).2
            = Except.error f) := by
  refine ⟨?_, ?_, ?_⟩
  · simp only [copy_object]
    split <;> rfl
  · intro h
    simp only [copy_object, h]
  · intro e h
    refine ⟨wrapExc e ("Error copying " ++ source_object_name ++ " to " ++ dest_object_name), ?_⟩
    simp only [copy_object, h, wrapExc]
    cases e <;> rfl

/-- C6 witness: a successful concrete copy from "a.json" to "b.json". -/
theorem copy_object_spec_witness :
    (copy_object envW clientOk "a.json" "b.json").1
      = [Call.copyObject (_bucket_name envW) "b.json"
          (CopySource.mk (_bucket_name envW) "a.json")] :=
  (copy_object_spec envW clientOk "a.json" "b.json").1

/-- C7: `upload_local_data` issues exactly one `fput_object` call whose key is
the caller-supplied `object_name`, unprefixed and untransformed, and whose
file path is the supplied local path; when the client returns, the function
returns the truthiness of the client's reported result. -/
theorem upload_local_data_spec (env : Env) (minio_client : MinioClient)
    (local_data_path : String) (object_name : String) :
    (upload_local_data env minio_client local_data_path object_name).1
      = [Call.fputObject (_bucket_name env) object_name local_data_path]
    ∧ (∀ resp : Bool,
        minio_client.fput_object (_bucket_name env) object_name local_data_path
          = Except.ok resp →
        (upload_local_data env minio_client local_data_path object_name).2
          = Except.ok resp) := by
  constructor
  · simp only [upload_local_data]
    split <;> rfl
  · intro resp h
    simp only [upload_local_data, h]
    cases resp <;> rfl

/-- C7 witness at a concrete path and key. -/
theorem upload_local_data_spec_witness :
    (upload_local_data envW clientOk "/tmp/data.tar" "models/data.tar").1
      = [Call.fputObject (_bucket_name envW) "models/data.tar" "/tmp/data.tar"] :=
  (upload_local_data_spec envW clientOk "/tmp/data.tar" "models/data.tar").1

/-- C8: the bucket name and folder come from the one-time environment reads
(`_bucket_name`, `_custom_files_folder`) and are used unchanged; when the
folder variable is absent, the JSON-artifact and reward-function keys are the
malformed strings with a literal "None" segment, and each operation still
issues its client call with that key — nothing validates or rejects it. -/
theorem missing_folder_config_none_keys {R : Type} (env : Env)
    (minio_client : MinioClient)
    (dumps : R → Except String Bytes) (record : R) (body : Bytes)
    (reward_function_buffer : Bytes)
    (hnone : _custom_files_folder env = none)
    (hser : dumps record = Except.ok body) :
    (upload_hyperparameters env dumps minio_client record).1
      = [Call.putObject (_bucket_name env) "None/hyperparameters.json"
          body body.length "application/json"]
    ∧ (upload_metadata env dumps minio_client record).1
      = [Call.putObject (_bucket_name env) "None/model_metadata.json"
          body body.length "application/json"]
    ∧ (upload_reward_function env minio_client reward_function_buffer).1
      = [Call.putObject (_bucket_name env) "None/reward_function.py"
          reward_function_buffer reward_function_buffer.length "text/plain"] := by
  have hkey1 : pyStr (_custom_files_folder env) ++ "/" ++ "hyperparameters.json"
      = "None/hyperparameters.json" := by rw [hnone]; rfl
  have hkey2 : pyStr (_custom_files_folder env) ++ "/" ++ "model_metadata.json"
      = "None/model_metadata.json" := by rw [hnone]; rfl
  have hkey3 : pyStr (_custom_files_folder env) ++ "/" ++ "reward_function.py"
      = "None/reward_function.py" := by rw [hnone]; rfl
  refine ⟨?_, ?_, ?_⟩
  · simp only [upload_hyperparameters, hser, hkey1]
    split <;> rfl
  · simp only [upload_metadata, hser, hkey2]
    split <;> rfl
  · simp only [upload_reward_function, hkey3]
    split <;> rfl

/-- C8 witness: with the folder variable unset in `envNone`, the
hyperparameters upload targets the malformed key "None/hyperparameters.json". -/
theorem missing_folder_config_none_keys_witness :
    (upload_hyperparameters envNone dumpsW clientOk 2).1
      = [Call.putObject (_bucket_name envNone) "None/hyperparameters.json"
          (List.replicate 2 55) (List.replicate 2 55).length "application/json"] :=
  (missing_folder_config_none_keys envNone clientOk dumpsW 2
    (List.replicate 2 55) [] rfl rfl).1

/-- C9: `remove_objects_folder` never inspects the iterable of per-key
deletion errors that `remove_objects` returns: whenever the client returns
(rather than raises) such an iterable — here an arbitrary, possibly non-empty
`errs` — the function still returns `true` and raises nothing. -/
theorem remove_objects_errors_dropped (env : Env) (minio_client : MinioClient)
    (object_name : String) (objects : List ObjInfo) (errs : List DeleteError)
    (hlist : minio_client.list_objects (_bucket_name env) object_name
      = Except.ok objects)
    (hrem : minio_client.remove_objects (_bucket_name env)
        ((objects.map (fun obj => obj.object_name)).map (fun name => DeleteObject.mk name))
      = Except.ok errs)
    (hne : errs ≠ []) :
    (remove_objects_folder env minio_client object_name).2 = Except.ok true := by
  simp only [remove_objects_folder, hlist, hrem]

/-- C9 witness: a client reporting one per-key deletion failure; the function
still reports success. -/
theorem remove_objects_errors_dropped_witness :
    (remove_objects_folder envW clientDelErrs "custom").2 = Except.ok true :=
  remove_objects_errors_dropped envW clientDelErrs "custom" [ObjInfo.mk "custom/a"]
    [DeleteError.mk "InternalError" "oops" "custom/a"] rfl rfl (by decide)

/-- C10 counterexample: `upload_metadata` does not behave identically to
`upload_hyperparameters` up to substituting the object name in the failure
message: on a client whose `put_object` raises `MinioException`, the
hyperparameters message is "Error uploading hyperparameters.json file to S3
bucket" (one space before "file"), so pure name substitution predicts
"Error uploading model_metadata.json file to S3 bucket", but `upload_metadata`
produces a message with two spaces before "file". -/
theorem upload_metadata_not_name_substitution :
    (upload_hyperparameters envW dumpsW clientMinioErr 1).2
      = Except.error (FileUploadException.withMessage
          "Error uploading hyperparameters.json file to S3 bucket")
    ∧ (upload_metadata envW dumpsW clientMinioErr 1).2
      = Except.error (FileUploadException.withMessage
          "Error uploading model_metadata.json  file to S3 bucket")
    ∧ ("Error uploading model_metadata.json  file to S3 bucket" : String)
      ≠ "Error uploading model_metadata.json file to S3 bucket" :=
  ⟨rfl, rfl, by decide⟩

/-- C10 amended: `upload_hyperparameters` and `upload_metadata` are both
instances of the one common shape `jsonUploadShape` — same serialization,
same length computation, same content-type, same truthiness mapping, same
exception-wrapping policy — differing only in the fixed object name inserted
in the key and in the storage-error message, where `upload_metadata`'s message
additionally has two spaces before "file" instead of one. -/
theorem upload_metadata_matches_hyperparameters {R : Type} (env : Env)
    (dumps : R → Except String Bytes) (minio_client : MinioClient) (record : R) :
    upload_hyperparameters env dumps minio_client record
      = jsonUploadShape env "hyperparameters.json"
          "Error uploading hyperparameters.json file to S3 bucket"
          dumps minio_client record
    ∧ upload_metadata env dumps minio_client record
      = jsonUploadShape env "model_metadata.json"
          "Error uploading model_metadata.json  file to S3 bucket"
          dumps minio_client record := by
  constructor
  · simp only [upload_hyperparameters, jsonUploadShape]
    rcases dumps record with e | body
    · rfl
    · simp only []
      split <;> rfl
  · simp only [upload_metadata, jsonUploadShape]
    rcases dumps record with e | body
    · rfl
    · simp only []
      split <;> rfl

/-- C10 amended witness at a concrete environment, client and record. -/
theorem upload_metadata_matches_hyperparameters_witness :
    upload_metadata envW dumpsW clientOk 1
      = jsonUploadShape envW "model_metadata.json"
          "Error uploading model_metadata.json  file to S3 bucket"
          dumpsW clientOk 1 :=
  (upload_metadata_matches_hyperparameters envW dumpsW clientOk 1).2
